import Mathlib

/-!
Verification development for the srx-fleet-manager change/upgrade
orchestration engine.

The Python tasks `apply_config_commands` (backend/worker/tasks/config_change.py)
and `upgrade_device` (backend/worker/tasks/upgrade.py) are embedded as pure
functions over an environment that fixes the outcome of every external
operation (device RPCs, git saves, the AI oracle).  Each environment field
is an `Except` value: `.error e` means the corresponding Python call raised
the exception `e`, `.ok v` means it returned `v`.  The embedded function
threads the exact control flow of the source, recording the job status
trail, call counters for the safety-relevant operations and the final
result payload fields the claims talk about.
-/

/-- Python exception model: the constructors are the exception classes the
embedded code can raise or observe, `className` recovers the Python class
name of a raised value. -/
inductive PyErr where
  | typeError (msg : String)
  | valueError (msg : String)
  | connectError (msg : String)
  | rpcError (msg : String)
  | runtimeError (msg : String)
  | exception (msg : String)
deriving Repr, DecidableEq

def PyErr.className : PyErr → String
  | .typeError _ => "TypeError"
  | .valueError _ => "ValueError"
  | .connectError _ => "ConnectError"
  | .rpcError _ => "RpcError"
  | .runtimeError _ => "RuntimeError"
  | .exception _ => "Exception"

def PyErr.message : PyErr → String
  | .typeError m => m
  | .valueError m => m
  | .connectError m => m
  | .rpcError m => m
  | .runtimeError m => m
  | .exception m => m

/-- Python truthiness of `dev.cu.diff()` (a `str` or `None`):
`if diff:` is `False` exactly on `None` and the empty string. -/
def pyTruthy : Option String → Bool
  | none => false
  | some s => !(s == "")

/-- Status vocabulary documented on the `Job` model
(backend/app/models/job.py line 22):
`# pending, running, success, failed, cancelled`. -/
def jobStatusVocabulary : List String :=
  ["pending", "running", "success", "failed", "cancelled"]

/-- Outcomes of the external operations performed by one run of
`apply_config_commands`, in source order. -/
structure ChangeEnv where
  deviceFound : Bool
  getConfigPre : Except PyErr String
  savePre : Except PyErr Nat
  connect : Except PyErr Unit
  loadSet : Except PyErr Unit
  diffResult : Except PyErr (Option String)
  commitConfirmed : Except PyErr Unit
  queryFacts : Except PyErr Unit
  confirmCommit : Except PyErr Unit
  getConfigPost : Except PyErr String
  savePost : Except PyErr Nat

/-- Observable outcome of one run of `apply_config_commands`:
the sequence of `job.status` values written (in order), the result
payload fields, the propagated exception, and call counters for the
commit-confirmed operation (`dev.cu.commit(confirm=t)`, line 117),
the confirming commit (`dev.cu.commit(...)`, line 128), completed
`git_service.save_config` calls, and `ConfigBackup` rows added. -/
structure ChangeResult where
  statuses : List String
  success : Option Bool
  message : Option String
  errorText : Option String
  raised : Option PyErr
  commitConfirmedCalls : Nat
  confirmCalls : Nat
  preSaves : Nat
  postSaves : Nat
  configBackupRecords : Nat
  diffOut : Option String
  resultCommands : Option (List String)
  resultDescription : Option String
deriving Repr, DecidableEq

/-- Failure exit of `apply_config_commands` (config_change.py lines 169-189):
the job is marked `failed`, `error_text` and a failure payload are stored and
the exception is re-raised. -/
def changeFailed (e : PyErr) (cmds : List String) (desc : String)
    (cc cf pre post : Nat) (d : Option String) : ChangeResult :=
  { statuses := ["running", "failed"]
    success := some false
    message := none
    errorText := some e.message
    raised := some e
    commitConfirmedCalls := cc
    confirmCalls := cf
    preSaves := pre
    postSaves := post
    configBackupRecords := 0
    diffOut := d
    resultCommands := some cmds
    resultDescription := some desc }

/-- Embedding of `apply_config_commands` (config_change.py lines 18-196).
The job record is created directly with status `running` (line 60); no
`ConfigBackup` row is ever constructed by this task. -/
def apply_config_commands (env : ChangeEnv) (commands : List String)
    (description : String) : ChangeResult :=
  if env.deviceFound = false then
    -- line 46: raise ValueError before any job record exists
    { statuses := []
      success := none
      message := none
      errorText := none
      raised := some (.valueError "Device not found")
      commitConfirmedCalls := 0
      confirmCalls := 0
      preSaves := 0
      postSaves := 0
      configBackupRecords := 0
      diffOut := none
      resultCommands := none
      resultDescription := none }
  else
    match env.getConfigPre with
    | .error e => changeFailed e commands description 0 0 0 0 none
    | .ok _currentConfig =>
    match env.savePre with
    | .error e => changeFailed e commands description 0 0 0 0 none
    | .ok _preSha =>
    match env.connect with
    | .error e => changeFailed e commands description 0 0 1 0 none
    | .ok _ =>
    match env.loadSet with
    | .error e => changeFailed e commands description 0 0 1 0 none
    | .ok _ =>
    match env.diffResult with
    | .error e => changeFailed e commands description 0 0 1 0 none
    | .ok diff =>
    if pyTruthy diff = false then
      -- lines 100-109: empty diff short-circuit, job completed, no commit
      { statuses := ["running", "completed"]
        success := some true
        message := some "No changes detected"
        errorText := none
        raised := none
        commitConfirmedCalls := 0
        confirmCalls := 0
        preSaves := 1
        postSaves := 0
        configBackupRecords := 0
        diffOut := diff
        resultCommands := some commands
        resultDescription := none }
    else
      match env.commitConfirmed with
      | .error e => changeFailed e commands description 1 0 1 0 diff
      | .ok _ =>
      match env.queryFacts with
      | .error e =>
        -- lines 130-136: reachability check raised; confirm is NOT sent,
        -- a wrapping Exception is raised instead
        changeFailed
          (.exception ("Device connectivity lost after change: " ++ e.message))
          commands description 1 0 1 0 diff
      | .ok _ =>
      match env.confirmCommit with
      | .error e =>
        -- the confirming commit itself raised inside the same try block
        changeFailed
          (.exception ("Device connectivity lost after change: " ++ e.message))
          commands description 1 1 1 0 diff
      | .ok _ =>
      match env.getConfigPost with
      | .error e => changeFailed e commands description 1 1 1 0 diff
      | .ok _ =>
      match env.savePost with
      | .error e => changeFailed e commands description 1 1 1 0 diff
      | .ok _postSha =>
        -- lines 147-167: success exit
        { statuses := ["running", "completed"]
          success := some true
          message := some "Configuration applied successfully"
          errorText := none
          raised := none
          commitConfirmedCalls := 1
          confirmCalls := 1
          preSaves := 1
          postSaves := 1
          configBackupRecords := 0
          diffOut := diff
          resultCommands := some commands
          resultDescription := some description }

/-- Outcomes of the external operations of one `backup_device` run
(backup.py lines 17-126). -/
structure BackupEnv where
  deviceFound : Bool
  getConfig : Except PyErr String
  saveConfig : Except PyErr (String × Option Nat)

/-- Observable outcome of one `backup_device` run: status trail,
`ConfigBackup` rows added and the `backup_type` written on them. -/
structure BackupResult where
  statuses : List String
  configBackupRecords : Nat
  backupTypes : List String
deriving Repr, DecidableEq

/-- Embedding of `backup_device` (backup.py lines 17-126): the only task of
the repository that constructs a `ConfigBackup` row; `backup_type` is
`scheduled` when triggered by `system`, else `manual` (line 70), and the
terminal success status of this task is the string `success` (line 79). -/
def backup_device (env : BackupEnv) (userEmail : String) : BackupResult :=
  if env.deviceFound = false then
    { statuses := [], configBackupRecords := 0, backupTypes := [] }
  else
    match env.getConfig with
    | .error _ => { statuses := ["running", "failed"], configBackupRecords := 0, backupTypes := [] }
    | .ok _ =>
    match env.saveConfig with
    | .error _ => { statuses := ["running", "failed"], configBackupRecords := 0, backupTypes := [] }
    | .ok _ =>
      { statuses := ["running", "success"]
        configBackupRecords := 1
        backupTypes := [if userEmail == "system" then "scheduled" else "manual"] }

/-- Verdict of the readiness oracle as parsed by
`AIService.analyze_upgrade_readiness` (ai_service.py lines 431-545):
`analysis.get('ready')` and `analysis.get('summary')`. -/
structure ReadinessAnalysis where
  ready : Bool
  summary : String
deriving Repr, DecidableEq

/-- Verdict of the result oracle as parsed by
`AIService.analyze_upgrade_result` (ai_service.py lines 664-783); the
`recommendation` and `success` keys may be absent from the parsed JSON. -/
structure ResultAnalysis where
  recommendation : Option String
  success : Option Bool
  summary : String
deriving Repr, DecidableEq

/-- `AIService.analyze_upgrade_readiness`: returns the failure dict
when the service is disabled or the oracle call raised or its answer
failed to parse (all modelled by the `.error` side of `oracle`), else
the parsed analysis. -/
def aiReadinessDict (enabled : Bool) (oracle : Except String ReadinessAnalysis) :
    Except String ReadinessAnalysis :=
  if enabled then oracle else .error "AI analysis is not enabled"

/-- `AIService.generate_upgrade_plan`: failure dict on disabled service,
oracle error or parse error, else the plan. -/
def aiPlanDict (enabled : Bool) (oracle : Except String Unit) : Except String Unit :=
  if enabled then oracle else .error "AI analysis is not enabled"

/-- `AIService.analyze_upgrade_result`: failure dict on disabled service,
oracle error or parse error, else the parsed analysis. -/
def aiResultDict (enabled : Bool) (oracle : Except String ResultAnalysis) :
    Except String ResultAnalysis :=
  if enabled then oracle else .error "AI analysis is not enabled"

/-- Embedding of the post-reboot reconnection loop of `upgrade_device`
(upgrade.py lines 168-179):
`for i in range(max_retries): try: attempt(i); break
 except Exception: if i == max_retries - 1: raise ValueError(...)`.
`f i` is the outcome of attempt `i` (both the `PyEZService(device)`
reconnect and the `health_check` call), `fuel` is the number of loop
iterations remaining (`max_retries - i`).  Returns the number of
attempts performed together with the loop outcome: `.ok i` when
attempt `i` succeeded, the raised error otherwise.  The `except`
clause catches every exception class, so an attempt failure of ANY
kind is swallowed unless it is the final iteration. -/
def reconnectLoopGo (f : Nat → Except PyErr Unit) : Nat → Nat → Nat × Except PyErr Nat
  | _, 0 => (0, .error (.valueError "Device did not come back online after reboot"))
  | i, fuel + 1 =>
    match f i with
    | .ok _ => (1, .ok i)
    | .error _ =>
      if fuel = 0 then
        (1, .error (.valueError "Device did not come back online after reboot"))
      else
        let r := reconnectLoopGo f (i + 1) fuel
        (r.1 + 1, r.2)

/-- `max_retries = 12` (upgrade.py line 168). -/
def upgradeMaxRetries : Nat := 12

/-- The reconnection loop as run by `upgrade_device`: starts at attempt 0
with all 12 iterations remaining. -/
def reconnectLoop (f : Nat → Except PyErr Unit) : Nat × Except PyErr Nat :=
  reconnectLoopGo f 0 upgradeMaxRetries

/-- Outcomes of the external operations of one `upgrade_device` run,
in source order (upgrade.py lines 22-269). -/
structure UpgEnv where
  deviceFound : Bool
  firmwareFound : Bool
  serviceInit : Except PyErr Unit
  aiEnabled : Bool
  healthCheck : Except PyErr Unit
  readinessOracle : Except String ReadinessAnalysis
  planOracle : Except String Unit
  getConfiguration : Except PyErr String
  commitConfigPre : Except PyErr Nat
  requestSnapshot : Except PyErr Unit
  sftpPut : Except PyErr Unit
  packageAdd : Except PyErr Unit
  requestReboot : Except PyErr Unit
  reconnect : Nat → Except PyErr Unit
  getConfigurationPost : Except PyErr String
  commitConfigPost : Except PyErr Nat
  factsVersion : Option String
  resultOracle : Except String ResultAnalysis

/-- Observable outcome of one `upgrade_device` run: final job status, the
propagated exception, call counters for the oracle consultation and the
mutating phases (upload/install/reboot/device snapshot), reconnection
attempts made, whether phase 9 (post-upgrade validation) was reached,
the stored recommendation and result `success` flag, the device's
recorded firmware version after the run, and completed config commits. -/
structure UpgRes where
  status : String
  raised : Option PyErr
  readinessCalls : Nat
  uploadCalls : Nat
  installCalls : Nat
  rebootCalls : Nat
  snapshotCalls : Nat
  reconnectAttempts : Nat
  postValidationReached : Bool
  recommendation : Option String
  resultSuccess : Option Bool
  deviceVersion : String
  savedSnapshots : Nat
deriving Repr, DecidableEq

/-- Failure exit of `upgrade_device` (upgrade.py lines 254-266): the job is
marked `failed` and the exception re-raised; the device's recorded version
is untouched. -/
def upgFailedBase (iv : String) (e : PyErr) : UpgRes :=
  { status := "failed"
    raised := some e
    readinessCalls := 0
    uploadCalls := 0
    installCalls := 0
    rebootCalls := 0
    snapshotCalls := 0
    reconnectAttempts := 0
    postValidationReached := false
    recommendation := none
    resultSuccess := none
    deviceVersion := iv
    savedSnapshots := 0 }

/-- Embedding of `upgrade_device` (upgrade.py lines 22-269) over an
environment fixing every external outcome.  `env.serviceInit` is the
outcome of the `PyEZService(device)` constructor call at line 68;
`initialVersion` is `device.junos_version` before the run.  On the
success path the device's recorded version is set unconditionally to
`facts.get('version', 'Unknown')` (lines 192 and 223). -/
def upgrade_device (env : UpgEnv) (initialVersion : String) : UpgRes :=
  if env.deviceFound = false then
    upgFailedBase initialVersion (.valueError "Device not found")
  else if env.firmwareFound = false then
    upgFailedBase initialVersion (.valueError "Firmware version not found")
  else
    match env.serviceInit with
    | .error e => upgFailedBase initialVersion e
    | .ok _ =>
    match env.healthCheck with
    | .error e => upgFailedBase initialVersion e
    | .ok _ =>
    match aiReadinessDict env.aiEnabled env.readinessOracle with
    | .error msg =>
      { upgFailedBase initialVersion
          (.valueError ("AI readiness analysis failed: " ++ msg)) with
        readinessCalls := 1 }
    | .ok analysis =>
    if analysis.ready = false then
      { upgFailedBase initialVersion
          (.valueError ("Device not ready for upgrade: " ++ analysis.summary)) with
        readinessCalls := 1 }
    else
    match aiPlanDict env.aiEnabled env.planOracle with
    | .error msg =>
      { upgFailedBase initialVersion
          (.valueError ("Failed to generate upgrade plan: " ++ msg)) with
        readinessCalls := 1 }
    | .ok _ =>
    match env.getConfiguration with
    | .error e => { upgFailedBase initialVersion e with readinessCalls := 1 }
    | .ok _preConfig =>
    match env.commitConfigPre with
    | .error e => { upgFailedBase initialVersion e with readinessCalls := 1 }
    | .ok _preSha =>
    match env.requestSnapshot with
    | .error e =>
      { upgFailedBase initialVersion e with
        readinessCalls := 1, snapshotCalls := 1, savedSnapshots := 1 }
    | .ok _ =>
    match env.sftpPut with
    | .error e =>
      { upgFailedBase initialVersion e with
        readinessCalls := 1, snapshotCalls := 1, uploadCalls := 1, savedSnapshots := 1 }
    | .ok _ =>
    match env.packageAdd with
    | .error e =>
      { upgFailedBase initialVersion e with
        readinessCalls := 1, snapshotCalls := 1, uploadCalls := 1, installCalls := 1,
        savedSnapshots := 1 }
    | .ok _ =>
    match env.requestReboot with
    | .error e =>
      { upgFailedBase initialVersion e with
        readinessCalls := 1, snapshotCalls := 1, uploadCalls := 1, installCalls := 1,
        rebootCalls := 1, savedSnapshots := 1 }
    | .ok _ =>
    let lr := reconnectLoop env.reconnect
    match lr.2 with
    | .error e =>
      { upgFailedBase initialVersion e with
        readinessCalls := 1, snapshotCalls := 1, uploadCalls := 1, installCalls := 1,
        rebootCalls := 1, reconnectAttempts := lr.1, savedSnapshots := 1 }
    | .ok _k =>
    match env.getConfigurationPost with
    | .error e =>
      { upgFailedBase initialVersion e with
        readinessCalls := 1, snapshotCalls := 1, uploadCalls := 1, installCalls := 1,
        rebootCalls := 1, reconnectAttempts := lr.1, postValidationReached := true,
        savedSnapshots := 1 }
    | .ok _postConfig =>
    match env.commitConfigPost with
    | .error e =>
      { upgFailedBase initialVersion e with
        readinessCalls := 1, snapshotCalls := 1, uploadCalls := 1, installCalls := 1,
        rebootCalls := 1, reconnectAttempts := lr.1, postValidationReached := true,
        savedSnapshots := 1 }
    | .ok _postSha =>
    let newVersion := env.factsVersion.getD "Unknown"
    let aiRec : ResultAnalysis :=
      match aiResultDict env.aiEnabled env.resultOracle with
      | .error _ =>
        { recommendation := some "investigate", success := none,
          summary := "AI analysis unavailable" }
      | .ok a => a
    { status := "completed"
      raised := none
      readinessCalls := 1
      uploadCalls := 1
      installCalls := 1
      rebootCalls := 1
      snapshotCalls := 1
      reconnectAttempts := lr.1
      postValidationReached := true
      recommendation := aiRec.recommendation
      resultSuccess := some (aiRec.success.getD true)
      deviceVersion := newVersion
      savedSnapshots := 2 }

/-! Artifact store: `GitService` (backend/app/services/git_service.py).
The repository is a working tree (path to content map, kept in the sorted
order in which git stores and traverses tree entries) plus a list of
commits, each a snapshot of the tree; the commit sha is the commit's
index in that list. -/

/-- Device fields used by `GitService` (hostname, region, site). -/
structure DeviceM where
  hostname : String
  region : Option String
  site : Option String
deriving Repr, DecidableEq

/-- A git tree: path to blob-content pairs in sorted path order. -/
abbrev GitTree := List (String × String)

/-- Python `s.endswith(suf)`. -/
def strEndsWith (s suf : String) : Bool :=
  suf.data.isSuffixOf s.data

/-- Lexicographic byte order on character lists (the order git sorts tree
entries by). -/
def charListLt : List Char → List Char → Bool
  | _, [] => false
  | [], _ :: _ => true
  | a :: as, b :: bs =>
    if a.toNat < b.toNat then true
    else if b.toNat < a.toNat then false
    else charListLt as bs

/-- Lexicographic byte order on paths. -/
def strLt (p q : String) : Bool := charListLt p.data q.data

/-- Write a file into the tree, keeping entries sorted by path
(the order in which `commit.tree.traverse()` yields blobs). -/
def insertSorted : GitTree → String → String → GitTree
  | [], p, c => [(p, c)]
  | (q, d) :: t, p, c =>
    if p = q then (p, c) :: t
    else if strLt p q then (p, c) :: (q, d) :: t
    else (q, d) :: insertSorted t p c

structure GitRepo where
  workTree : GitTree
  commits : List GitTree
deriving Repr, DecidableEq

/-- `region/site/hostname.conf` with `unknown` defaults
(git_service.py lines 70-74). -/
def devicePath (d : DeviceM) : String :=
  (d.region.getD "unknown") ++ "/" ++ (d.site.getD "unknown") ++ "/" ++ d.hostname ++ ".conf"

/-- Embedding of `GitService.save_config` (git_service.py lines 57-90):
writes `region/site/hostname.conf`, commits when `git_auto_commit` is
set (returning the new commit sha), else returns no sha.  Result is the
new repository state with the `(file_path, commit_sha)` pair the method
returns. -/
def save_config (autoCommit : Bool) (repo : GitRepo) (d : DeviceM) (configText : String) :
    GitRepo × String × Option Nat :=
  let t := insertSorted repo.workTree (devicePath d) configText
  if autoCommit then
    ({ workTree := t, commits := repo.commits ++ [t] }, devicePath d, some repo.commits.length)
  else
    ({ workTree := t, commits := repo.commits }, devicePath d, none)

/-- The lookup inside `GitService.get_config_at_commit` (lines 175-177):
the FIRST blob in traversal order whose path satisfies
`item.path.endswith(hostname + ".conf")`. -/
def findConfigBlob (t : GitTree) (hostname : String) : Option String :=
  match t with
  | [] => none
  | (p, c) :: rest =>
    if strEndsWith p (hostname ++ ".conf") then some c else findConfigBlob rest hostname

/-- Embedding of `GitService.get_config_at_commit` (git_service.py lines
155-183). -/
def get_config_at_commit (repo : GitRepo) (d : DeviceM) (sha : Nat) : Except String String :=
  match repo.commits.get? sha with
  | none => .error "bad commit"
  | some t =>
    match findConfigBlob t d.hostname with
    | some c => .ok c
    | none => .error ("Config not found for " ++ d.hostname)

/-! Class surface of the services, read off the source, for the
attribute-resolution facts of the upgrade task. -/

/-- The attributes defined on class `PyEZService`
(backend/app/services/pyez_service.py lines 19-286): all static methods,
no `__init__`, no instance attributes. -/
def pyezServiceMethodNames : List String :=
  ["connect", "get_facts", "get_config", "get_system_storage", "get_ipsec_sa",
   "commit_check", "commit_confirmed", "commit_final"]

/-- `PyEZService` defines no `__init__` (pyez_service.py lines 19-24). -/
def pyezServiceDefinesInit : Bool := false

/-- The methods defined on class `GitService`
(backend/app/services/git_service.py lines 19-245). -/
def gitServiceMethodNames : List String :=
  ["__init__", "_ensure_repo", "get_repo", "save_config", "_commit_config",
   "get_config_history", "get_config_at_commit", "get_diff", "get_stats",
   "_get_repo_size"]

/-- Python semantics of calling a class object: a class that does not
define `__init__` inherits `object.__init__`, which raises `TypeError`
when called with positional arguments. -/
def pythonConstruct (definesInit : Bool) (nArgs : Nat) (className : String) :
    Except PyErr Unit :=
  if definesInit then .ok ()
  else if nArgs = 0 then .ok ()
  else .error (.typeError (className ++ "() takes no arguments"))

/-- Outcome of `PyEZService(device)` at upgrade.py line 68 (and line 172)
under actual attribute resolution: one positional argument passed to a
class with no `__init__`. -/
def upgradeServiceInitOutcome : Except PyErr Unit :=
  pythonConstruct pyezServiceDefinesInit 1 "PyEZService"

/-- The run of `upgrade_device` reaches the reboot (phase 7) with every
earlier operation succeeding and the readiness verdict positive. -/
def preLoopOk (env : UpgEnv) : Prop :=
  env.deviceFound = true ∧ env.firmwareFound = true ∧ env.serviceInit = .ok () ∧
  env.aiEnabled = true ∧ env.healthCheck = .ok () ∧
  (∃ r, env.readinessOracle = .ok r ∧ r.ready = true) ∧
  env.planOracle = .ok () ∧
  (∃ s, env.getConfiguration = .ok s) ∧ (∃ n, env.commitConfigPre = .ok n) ∧
  env.requestSnapshot = .ok () ∧ env.sftpPut = .ok () ∧ env.packageAdd = .ok () ∧
  env.requestReboot = .ok ()

/-! Concrete environments used to evaluate the embeddings. -/

/-- Config-change run in which the post-commit facts query raises. -/
def envC1 : ChangeEnv :=
  { deviceFound := true
    getConfigPre := .ok "set system host-name old-01"
    savePre := .ok 0
    connect := .ok ()
    loadSet := .ok ()
    diffResult := .ok (some "+ set system host-name test-01")
    commitConfirmed := .ok ()
    queryFacts := .error (.connectError "timeout")
    confirmCommit := .ok ()
    getConfigPost := .ok "set system host-name test-01"
    savePost := .ok 1 }

/-- Config-change run whose staged load yields an empty diff. -/
def envC2 : ChangeEnv :=
  { deviceFound := true
    getConfigPre := .ok "set system host-name test-01"
    savePre := .ok 0
    connect := .ok ()
    loadSet := .ok ()
    diffResult := .ok none
    commitConfirmed := .ok ()
    queryFacts := .ok ()
    confirmCommit := .ok ()
    getConfigPost := .ok "set system host-name test-01"
    savePost := .ok 1 }

/-- Fully successful config-change run with a non-empty diff. -/
def envChangeOk : ChangeEnv :=
  { deviceFound := true
    getConfigPre := .ok "set system host-name old-01"
    savePre := .ok 0
    connect := .ok ()
    loadSet := .ok ()
    diffResult := .ok (some "+ set system host-name test-01")
    commitConfirmed := .ok ()
    queryFacts := .ok ()
    confirmCommit := .ok ()
    getConfigPost := .ok "set system host-name test-01"
    savePost := .ok 1 }

/-- Backup run that succeeds. -/
def envBackupOk : BackupEnv :=
  { deviceFound := true
    getConfig := .ok "set system host-name fw-01"
    saveConfig := .ok ("r/s/fw-01.conf", some 0) }

/-- Every reconnection attempt fails. -/
def fAllFail : Nat → Except PyErr Unit := fun _ => .error (.connectError "unreachable")

/-- Attempt 0 raises an error that is NOT an unreachability error;
attempt 1 succeeds. -/
def fNonUnreachableThenOk : Nat → Except PyErr Unit := fun i =>
  if i = 0 then .error (.rpcError "boom") else .ok ()

/-- Attempts 0 and 1 fail, attempt 2 succeeds. -/
def fThirdOk : Nat → Except PyErr Unit := fun i =>
  if i < 2 then .error (.connectError "unreachable") else .ok ()

/-- Fully successful upgrade run. -/
def upgEnvBase : UpgEnv :=
  { deviceFound := true
    firmwareFound := true
    serviceInit := .ok ()
    aiEnabled := true
    healthCheck := .ok ()
    readinessOracle := .ok { ready := true, summary := "low risk" }
    planOracle := .ok ()
    getConfiguration := .ok "set system host-name fw-01"
    commitConfigPre := .ok 0
    requestSnapshot := .ok ()
    sftpPut := .ok ()
    packageAdd := .ok ()
    requestReboot := .ok ()
    reconnect := fun _ => .ok ()
    getConfigurationPost := .ok "set system host-name fw-01"
    commitConfigPost := .ok 1
    factsVersion := some "23.4R2.13"
    resultOracle := .ok { recommendation := some "proceed", success := some true, summary := "ok" } }

/-- Upgrade run that reconnects on the third attempt. -/
def envC3 : UpgEnv := { upgEnvBase with reconnect := fThirdOk }

/-- Upgrade run in which the post-upgrade facts carry no version key. -/
def envC7 : UpgEnv := { upgEnvBase with factsVersion := none }

/-- Upgrade run in which the readiness oracle is unreachable. -/
def envC8 : UpgEnv := { upgEnvBase with readinessOracle := .error "oracle unreachable" }

/-- Upgrade run in which the post-upgrade result oracle is unreachable. -/
def envC8post : UpgEnv := { upgEnvBase with resultOracle := .error "oracle unreachable" }

/-- Upgrade run with the actual outcome of the `PyEZService(device)`
constructor call. -/
def envC10 : UpgEnv := { upgEnvBase with serviceInit := upgradeServiceInitOutcome }

/-- Clean artifact repository. -/
def repoClean : GitRepo := { workTree := [], commits := [] }

/-- Device `fw` in region `r`, site `s`. -/
def deviceFw : DeviceM := { hostname := "fw", region := some "r", site := some "s" }

/-- Repository already holding a config whose path `r/s/afw.conf` ends with
`fw.conf`, the suffix searched for device `fw`. -/
def repoWithCollision : GitRepo :=
  { workTree := [("r/s/afw.conf", "OTHER-DEVICE-CONFIG")]
    commits := [[("r/s/afw.conf", "OTHER-DEVICE-CONFIG")]] }

/-! Helper lemmas. -/

/-- The loop performs at most `fuel` attempts. -/
theorem reconnectLoopGo_attempts_le (f : Nat → Except PyErr Unit) :
    ∀ fuel i, (reconnectLoopGo f i fuel).1 ≤ fuel := by
  intro fuel
  induction fuel with
  | zero => intro i; simp [reconnectLoopGo]
  | succ n ih =>
    intro i
    cases h : f i with
    | ok _ => simp [reconnectLoopGo, h]
    | error e =>
      by_cases hn : n = 0
      · subst hn; simp [reconnectLoopGo, h]
      · simp only [reconnectLoopGo, h, hn, if_false]
        exact Nat.succ_le_succ (ih (i + 1))

/-- If every attempt in range fails, the loop performs all `fuel` attempts
and raises `ValueError("Device did not come back online after reboot")`. -/
theorem reconnectLoopGo_all_fail (f : Nat → Except PyErr Unit) :
    ∀ fuel i, 0 < fuel → (∀ j, i ≤ j → j < i + fuel → ∃ e, f j = .error e) →
      reconnectLoopGo f i fuel =
        (fuel, .error (.valueError "Device did not come back online after reboot")) := by
  intro fuel
  induction fuel with
  | zero => intro i h; omega
  | succ n ih =>
    intro i _ hall
    obtain ⟨e, he⟩ := hall i (Nat.le_refl i) (by omega)
    by_cases hn : n = 0
    · subst hn; simp [reconnectLoopGo, he]
    · simp only [reconnectLoopGo, he, hn, if_false]
      rw [ih (i + 1) (Nat.pos_of_ne_zero hn) (fun j hj1 hj2 => hall j (by omega) (by omega))]

/-- If the first success is at attempt `k` (within range), the loop stops
there, having performed `k + 1 - i` attempts, and returns `k`. -/
theorem reconnectLoopGo_succeeds (f : Nat → Except PyErr Unit) :
    ∀ fuel i k, i ≤ k → k < i + fuel →
      (∀ j, i ≤ j → j < k → ∃ e, f j = .error e) → f k = .ok () →
      reconnectLoopGo f i fuel = (k + 1 - i, .ok k) := by
  intro fuel
  induction fuel with
  | zero => intro i k h1 h2; omega
  | succ n ih =>
    intro i k hik hlt hfail hok
    rcases Nat.eq_or_lt_of_le hik with heq | hlt2
    · subst heq
      simp [reconnectLoopGo, hok]
    · obtain ⟨e, he⟩ := hfail i (Nat.le_refl i) hlt2
      have hn : n ≠ 0 := by omega
      simp only [reconnectLoopGo, he, hn, if_false]
      rw [ih (i + 1) k (by omega) (by omega) (fun j hj1 hj2 => hfail j (by omega) hj2) hok]
      have : k + 1 - (i + 1) + 1 = k + 1 - i := by omega
      rw [this]

/-- Under `preLoopOk` and loop success, `upgrade_device` produces exactly
the success-path record (with the result-oracle fallback applied). -/
theorem upgrade_device_success_shape (env : UpgEnv) (iv : String) (k : Nat) (s : String) (n : Nat)
    (h : preLoopOk env) (hk : (reconnectLoop env.reconnect).2 = .ok k)
    (hs : env.getConfigurationPost = .ok s) (hn : env.commitConfigPost = .ok n) :
    upgrade_device env iv =
      { status := "completed"
        raised := none
        readinessCalls := 1
        uploadCalls := 1
        installCalls := 1
        rebootCalls := 1
        snapshotCalls := 1
        reconnectAttempts := (reconnectLoop env.reconnect).1
        postValidationReached := true
        recommendation := (match aiResultDict env.aiEnabled env.resultOracle with
          | .error _ => some "investigate"
          | .ok a => a.recommendation)
        resultSuccess := some ((match aiResultDict env.aiEnabled env.resultOracle with
          | .error _ => (none : Option Bool)
          | .ok a => a.success).getD true)
        deviceVersion := env.factsVersion.getD "Unknown"
        savedSnapshots := 2 } := by
  obtain ⟨h1, h2, h3, h4, h5, ⟨r, hr, hready⟩, h7, ⟨s0, hs0⟩, ⟨n0, hn0⟩, h10, h11, h12, h13⟩ := h
  simp only [upgrade_device, h1, h2, h3, h4, h5, hr, h7, hs0, hn0, h10, h11, h12, h13,
    aiReadinessDict, aiPlanDict, if_true, hready, hk, hs, hn]
  simp [hready]
  cases aiResultDict true env.resultOracle <;> simp

/-- Under `preLoopOk` and loop success, phase 9 (post-upgrade validation)
is reached and the attempts counter is the loop's, whatever the later
outcomes. -/
theorem upgrade_device_loop_ok_post (env : UpgEnv) (iv : String) (k : Nat)
    (h : preLoopOk env) (hk : (reconnectLoop env.reconnect).2 = .ok k) :
    (upgrade_device env iv).postValidationReached = true ∧
    (upgrade_device env iv).reconnectAttempts = (reconnectLoop env.reconnect).1 := by
  obtain ⟨h1, h2, h3, h4, h5, ⟨r, hr, hready⟩, h7, ⟨s0, hs0⟩, ⟨n0, hn0⟩, h10, h11, h12, h13⟩ := h
  simp only [upgrade_device, h1, h2, h3, h4, h5, hr, h7, hs0, hn0, h10, h11, h12, h13,
    aiReadinessDict, aiPlanDict, if_true, hready, hk]
  cases hpost : env.getConfigurationPost with
  | error e => simp [hready, hpost]
  | ok s =>
    cases hcp : env.commitConfigPost with
    | error e => simp [hready, hpost, hcp]
    | ok n => simp [hready, hpost, hcp]

/-- Under the pre-readiness operations succeeding and a readiness-oracle
failure, `upgrade_device` aborts with the analysis-failed error before any
mutating phase. -/
theorem upgrade_device_readiness_error (env : UpgEnv) (iv : String) (msg : String)
    (h1 : env.deviceFound = true) (h2 : env.firmwareFound = true)
    (h3 : env.serviceInit = .ok ()) (h4 : env.aiEnabled = true)
    (h5 : env.healthCheck = .ok ()) (h6 : env.readinessOracle = .error msg) :
    upgrade_device env iv =
      { upgFailedBase iv (.valueError ("AI readiness analysis failed: " ++ msg)) with
        readinessCalls := 1 } := by
  simp only [upgrade_device, h1, h2, h3, h4, h5, h6, aiReadinessDict, if_true]
  simp

/-! Claim theorems. -/

/-- Claim C1: in every run of `apply_config_commands` in which the
reachability verification performed after the confirmed commit (the query
of device facts) raises an exception, the confirming commit is never sent:
the confirm call count of that run is zero. -/
theorem c1_reachability_failure_no_confirm (env : ChangeEnv) (commands : List String)
    (description : String) (e : PyErr) (h : env.queryFacts = .error e) :
    (apply_config_commands env commands description).confirmCalls = 0 := by
  unfold apply_config_commands
  repeat' split
  all_goals first
    | rfl
    | simp_all [changeFailed]

/-- Claim C1 witness: a concrete run whose facts query raises a
connectivity error makes zero confirm calls. -/
theorem c1_witness :
    (apply_config_commands envC1 ["set system host-name test-01"] "rename").confirmCalls = 0 :=
  c1_reachability_failure_no_confirm envC1 ["set system host-name test-01"] "rename"
    (.connectError "timeout") rfl

/-- Claim C2: every command batch whose staged load produces an empty diff
terminates the run in the successful terminal state with the
"No changes detected" result, and the commit-confirmed operation (and the
confirm) is never called in that run. -/
theorem c2_empty_diff_completes_without_commit (env : ChangeEnv) (commands : List String)
    (description : String) (cfg : String) (sha : Nat) (d : Option String)
    (h0 : env.deviceFound = true) (h1 : env.getConfigPre = .ok cfg)
    (h2 : env.savePre = .ok sha) (h3 : env.connect = .ok ())
    (h4 : env.loadSet = .ok ()) (h5 : env.diffResult = .ok d)
    (h6 : pyTruthy d = false) :
    (apply_config_commands env commands description).statuses = ["running", "completed"] ∧
    (apply_config_commands env commands description).success = some true ∧
    (apply_config_commands env commands description).message = some "No changes detected" ∧
    (apply_config_commands env commands description).commitConfirmedCalls = 0 ∧
    (apply_config_commands env commands description).confirmCalls = 0 := by
  simp [apply_config_commands, h0, h1, h2, h3, h4, h5, h6]

/-- Claim C2 witness: a concrete run whose diff is `None`. -/
theorem c2_witness :
    (apply_config_commands envC2 ["set system host-name test-01"] "noop").statuses
      = ["running", "completed"] ∧
    (apply_config_commands envC2 ["set system host-name test-01"] "noop").success = some true ∧
    (apply_config_commands envC2 ["set system host-name test-01"] "noop").message
      = some "No changes detected" ∧
    (apply_config_commands envC2 ["set system host-name test-01"] "noop").commitConfirmedCalls = 0 ∧
    (apply_config_commands envC2 ["set system host-name test-01"] "noop").confirmCalls = 0 :=
  c2_empty_diff_completes_without_commit envC2 ["set system host-name test-01"] "noop"
    "set system host-name test-01" 0 none rfl rfl rfl rfl rfl rfl rfl

/-- Claim C5 (code-bug evidence): the job record of a fully successful
config-change run is created directly at `running` and finishes at
terminal status `completed` — a status outside both the claim's terminal
set and the vocabulary documented on the Job model itself. -/
theorem c5_completed_outside_status_vocabulary :
    (apply_config_commands envChangeOk ["set system host-name test-01"] "rename").statuses
      = ["running", "completed"] ∧
    "completed" ∉ jobStatusVocabulary := by
  exact ⟨rfl, by decide⟩

/-- Claim C6 counterexample: a config-change run that passes the load step
and reaches a terminal state creates zero ConfigBackup rows, not two. -/
theorem c6_counterexample :
    (apply_config_commands envChangeOk ["set system host-name test-01"] "rename").statuses
      = ["running", "completed"] ∧
    (apply_config_commands envChangeOk
        ["set system host-name test-01"] "rename").configBackupRecords = 0 ∧
    (0 : Nat) ≠ 2 := by
  exact ⟨rfl, rfl, by decide⟩

/-- Claim C6 (amended): a fully successful config-change run past the load
step saves exactly two configuration snapshots to the git store (one
pre-change, one post-change) and creates zero ConfigBackup rows; every
`backup_device` run creates at most one ConfigBackup row, and any row it
creates is tagged `scheduled` or `manual` (never `pre_change` or
`post_change`). -/
theorem c6_two_snapshots_zero_rows (env : ChangeEnv) (commands : List String)
    (description : String) (cfg cfg2 : String) (sha sha2 : Nat) (d : Option String)
    (h0 : env.deviceFound = true) (h1 : env.getConfigPre = .ok cfg)
    (h2 : env.savePre = .ok sha) (h3 : env.connect = .ok ())
    (h4 : env.loadSet = .ok ()) (h5 : env.diffResult = .ok d)
    (h6 : pyTruthy d = true) (h7 : env.commitConfirmed = .ok ())
    (h8 : env.queryFacts = .ok ()) (h9 : env.confirmCommit = .ok ())
    (h10 : env.getConfigPost = .ok cfg2) (h11 : env.savePost = .ok sha2) :
    (apply_config_commands env commands description).preSaves = 1 ∧
    (apply_config_commands env commands description).postSaves = 1 ∧
    (apply_config_commands env commands description).configBackupRecords = 0 ∧
    (∀ benv email, (backup_device benv email).configBackupRecords ≤ 1 ∧
      ((backup_device benv email).backupTypes = [] ∨
       (backup_device benv email).backupTypes = ["scheduled"] ∨
       (backup_device benv email).backupTypes = ["manual"])) := by
  refine ⟨?_, ?_, ?_, ?_⟩
  · simp [apply_config_commands, h0, h1, h2, h3, h4, h5, h6, h7, h8, h9, h10, h11]
  · simp [apply_config_commands, h0, h1, h2, h3, h4, h5, h6, h7, h8, h9, h10, h11]
  · simp [apply_config_commands, h0, h1, h2, h3, h4, h5, h6, h7, h8, h9, h10, h11]
  · intro benv email
    unfold backup_device
    split
    · simp
    · cases hg : benv.getConfig with
      | error e => simp
      | ok c =>
        cases hs2 : benv.saveConfig with
        | error e => simp
        | ok p => cases he : email == "system" <;> simp [he]

/-- Claim C6 (amended) witness: concrete fully successful run plus a
concrete backup run. -/
theorem c6_witness :
    (apply_config_commands envChangeOk ["set system host-name test-01"] "witness").preSaves = 1 ∧
    (apply_config_commands envChangeOk ["set system host-name test-01"] "witness").postSaves = 1 ∧
    (apply_config_commands envChangeOk
        ["set system host-name test-01"] "witness").configBackupRecords = 0 ∧
    (∀ benv email, (backup_device benv email).configBackupRecords ≤ 1 ∧
      ((backup_device benv email).backupTypes = [] ∨
       (backup_device benv email).backupTypes = ["scheduled"] ∨
       (backup_device benv email).backupTypes = ["manual"])) :=
  c6_two_snapshots_zero_rows envChangeOk ["set system host-name test-01"] "witness"
    "set system host-name old-01" "set system host-name test-01" 0 1
    (some "+ set system host-name test-01")
    rfl rfl rfl rfl rfl rfl rfl rfl rfl rfl rfl rfl

/-- Claim C3 counterexample: when all 12 reconnection attempts fail, the
loop raises `ValueError("Device did not come back online after reboot")`;
the raised exception class is `ValueError`, not `UpgradeTimeoutError`
(no such exception class exists in the program). -/
theorem c3_counterexample :
    reconnectLoop fAllFail =
      (12, .error (.valueError "Device did not come back online after reboot")) ∧
    (PyErr.valueError "Device did not come back online after reboot").className
      = "ValueError" ∧
    "ValueError" ≠ "UpgradeTimeoutError" := by
  refine ⟨rfl, rfl, by decide⟩

/-- Claim C3 (amended): the reconnection loop makes at most 12 attempts; if
all 12 fail it raises `ValueError("Device did not come back online after
reboot")` and if the device becomes reachable on attempt k ≤ 12 (index
k-1) the loop exits successfully after exactly k attempts and the workflow
proceeds to post-upgrade validation. -/
theorem c3_loop_bound_exhaustion_success :
    (∀ f : Nat → Except PyErr Unit, (reconnectLoop f).1 ≤ upgradeMaxRetries) ∧
    (∀ f : Nat → Except PyErr Unit,
      (∀ j, j < upgradeMaxRetries → ∃ e, f j = .error e) →
      reconnectLoop f =
        (upgradeMaxRetries,
         .error (.valueError "Device did not come back online after reboot"))) ∧
    (∀ env iv k, preLoopOk env → k < upgradeMaxRetries →
      (∀ j, j < k → ∃ e, env.reconnect j = .error e) → env.reconnect k = .ok () →
      (upgrade_device env iv).reconnectAttempts = k + 1 ∧
      (upgrade_device env iv).postValidationReached = true) := by
  refine ⟨?_, ?_, ?_⟩
  · intro f; exact reconnectLoopGo_attempts_le f upgradeMaxRetries 0
  · intro f hf
    unfold reconnectLoop
    exact reconnectLoopGo_all_fail f upgradeMaxRetries 0 (by decide)
      (fun j hj1 hj2 => hf j (by omega))
  · intro env iv k hpre hk hfail hok
    have hloop : reconnectLoop env.reconnect = (k + 1, .ok k) := by
      unfold reconnectLoop
      have h := reconnectLoopGo_succeeds env.reconnect upgradeMaxRetries 0 k (Nat.zero_le k)
        (by omega) (fun j _ hj2 => hfail j hj2) hok
      simpa using h
    have h2 := upgrade_device_loop_ok_post env iv k hpre (by rw [hloop])
    refine ⟨?_, h2.1⟩
    rw [h2.2, hloop]

/-- Claim C3 witness: the bound at a concrete always-failing attempt
function, exhaustion at the same, and a concrete run reconnecting on the
third attempt (k = 3, index 2) that reaches post-upgrade validation. -/
theorem c3_witness :
    (reconnectLoop fAllFail).1 ≤ upgradeMaxRetries ∧
    reconnectLoop fAllFail =
      (upgradeMaxRetries,
       .error (.valueError "Device did not come back online after reboot")) ∧
    ((upgrade_device envC3 "22.4R3").reconnectAttempts = 3 ∧
     (upgrade_device envC3 "22.4R3").postValidationReached = true) := by
  refine ⟨c3_loop_bound_exhaustion_success.1 fAllFail,
    c3_loop_bound_exhaustion_success.2.1 fAllFail
      (fun j _ => ⟨.connectError "unreachable", rfl⟩),
    c3_loop_bound_exhaustion_success.2.2 envC3 "22.4R3" 2
      ⟨rfl, rfl, rfl, rfl, rfl, ⟨_, rfl, rfl⟩, rfl, ⟨_, rfl⟩, ⟨_, rfl⟩, rfl, rfl, rfl, rfl⟩
      (by decide) ?_ rfl⟩
  intro j hj
  refine ⟨.connectError "unreachable", ?_⟩
  show fThirdOk j = .error (.connectError "unreachable")
  simp [fThirdOk, hj]

/-- Claim C4 counterexample: attempt 0 raises an error that is not an
unreachability error (`RpcError`, class distinct from `ConnectError`), yet
the loop swallows it and performs attempt 1, which succeeds: the run makes
2 attempts and ends in success, so a non-unreachability error does NOT
terminate the loop. -/
theorem c4_counterexample :
    fNonUnreachableThenOk 0 = .error (.rpcError "boom") ∧
    (PyErr.rpcError "boom").className ≠ "ConnectError" ∧
    reconnectLoop fNonUnreachableThenOk = (2, .ok 1) := by
  refine ⟨rfl, by decide, rfl⟩

/-- Claim C4 (amended): inside the reconnection loop every attempt that
raises ANY exception (unreachability or not) before the final iteration is
swallowed and followed by a retry; an exception on the final iteration
makes the loop raise the timeout `ValueError`. -/
theorem c4_all_errors_swallowed :
    (∀ (f : Nat → Except PyErr Unit) (i fuel : Nat) (e : PyErr), f i = .error e →
      reconnectLoopGo f i (fuel + 2) =
        ((reconnectLoopGo f (i + 1) (fuel + 1)).1 + 1,
         (reconnectLoopGo f (i + 1) (fuel + 1)).2)) ∧
    (∀ (f : Nat → Except PyErr Unit) (i : Nat) (e : PyErr), f i = .error e →
      reconnectLoopGo f i 1 =
        (1, .error (.valueError "Device did not come back online after reboot"))) := by
  constructor
  · intro f i fuel e h
    simp [reconnectLoopGo, h]
  · intro f i e h
    simp [reconnectLoopGo, h]

/-- Claim C4 witness: a concrete non-unreachability error is swallowed and
followed by a retry; a concrete final-iteration failure raises the timeout
`ValueError`. -/
theorem c4_witness :
    reconnectLoopGo fNonUnreachableThenOk 0 2 =
      ((reconnectLoopGo fNonUnreachableThenOk 1 1).1 + 1,
       (reconnectLoopGo fNonUnreachableThenOk 1 1).2) ∧
    reconnectLoopGo fAllFail 0 1 =
      (1, .error (.valueError "Device did not come back online after reboot")) :=
  ⟨c4_all_errors_swallowed.1 fNonUnreachableThenOk 0 0 (.rpcError "boom") rfl,
   c4_all_errors_swallowed.2 fAllFail 0 (.connectError "unreachable") rfl⟩

/-- Claim C7 counterexample: a run in which the post-upgrade facts carry no
version (the version could not be read) still completes and OVERWRITES the
device's recorded firmware version with the string `Unknown`, so the
recorded version is not left unchanged. -/
theorem c7_counterexample :
    envC7.factsVersion = none ∧
    (upgrade_device envC7 "22.4R3.25").status = "completed" ∧
    (upgrade_device envC7 "22.4R3.25").deviceVersion = "Unknown" ∧
    "Unknown" ≠ "22.4R3.25" := by
  refine ⟨rfl, rfl, rfl, by decide⟩

/-- Claim C7 (amended): in the finalize phase the device's recorded
firmware version is set unconditionally to the post-upgrade facts value
`facts.get('version', 'Unknown')` — with no comparison against the prior
version and even when the version could not be read (falling back to
`Unknown`). -/
theorem c7_version_set_unconditionally (env : UpgEnv) (iv : String) (k : Nat)
    (s : String) (n : Nat)
    (h : preLoopOk env) (hk : (reconnectLoop env.reconnect).2 = .ok k)
    (hs : env.getConfigurationPost = .ok s) (hn : env.commitConfigPost = .ok n) :
    (upgrade_device env iv).status = "completed" ∧
    (upgrade_device env iv).deviceVersion = env.factsVersion.getD "Unknown" := by
  rw [upgrade_device_success_shape env iv k s n h hk hs hn]
  exact ⟨rfl, rfl⟩

/-- Claim C7 witness: concrete completed run whose facts have no version
key; the recorded version becomes `Unknown`. -/
theorem c7_witness :
    (upgrade_device envC7 "22.4R3.25").status = "completed" ∧
    (upgrade_device envC7 "22.4R3.25").deviceVersion = envC7.factsVersion.getD "Unknown" :=
  c7_version_set_unconditionally envC7 "22.4R3.25" 0 "set system host-name fw-01" 1
    ⟨rfl, rfl, rfl, rfl, rfl, ⟨_, rfl, rfl⟩, rfl, ⟨_, rfl⟩, ⟨_, rfl⟩, rfl, rfl, rfl, rfl⟩
    rfl rfl rfl

/-- Claim C8 counterexample: when the readiness oracle is unreachable the
job is ABORTED (terminal status `failed`, error "AI readiness analysis
failed: ..."): the readiness consultation does not degrade to a
"not ready" assessment, it fails the job on the oracle error itself. -/
theorem c8_counterexample :
    envC8.readinessOracle = .error "oracle unreachable" ∧
    (upgrade_device envC8 "22.1R1").status = "failed" ∧
    (upgrade_device envC8 "22.1R1").raised =
      some (.valueError "AI readiness analysis failed: oracle unreachable") := by
  exact ⟨rfl, rfl, rfl⟩

/-- Claim C8 (amended): an unreachable readiness oracle aborts the job as
`failed` with the "AI readiness analysis failed" error before any mutating
phase (zero upload / install / reboot / snapshot-commit calls); an
unreachable post-upgrade result oracle degrades to recommendation
`investigate` with result success `true` and the job still reaches the
successful terminal state. -/
theorem c8_oracle_error_handling (env env2 : UpgEnv) (iv iv2 : String)
    (msg : String) (k : Nat)
    (h1 : env.deviceFound = true) (h2 : env.firmwareFound = true)
    (h3 : env.serviceInit = .ok ()) (h4 : env.aiEnabled = true)
    (h5 : env.healthCheck = .ok ()) (h6 : env.readinessOracle = .error msg)
    (g1 : preLoopOk env2) (g2 : (reconnectLoop env2.reconnect).2 = .ok k)
    (g3 : ∃ s, env2.getConfigurationPost = .ok s)
    (g4 : ∃ n, env2.commitConfigPost = .ok n)
    (g5 : ∃ m, env2.resultOracle = .error m) :
    ((upgrade_device env iv).status = "failed" ∧
     (upgrade_device env iv).raised =
       some (.valueError ("AI readiness analysis failed: " ++ msg)) ∧
     (upgrade_device env iv).uploadCalls = 0 ∧
     (upgrade_device env iv).installCalls = 0 ∧
     (upgrade_device env iv).rebootCalls = 0 ∧
     (upgrade_device env iv).savedSnapshots = 0) ∧
    ((upgrade_device env2 iv2).status = "completed" ∧
     (upgrade_device env2 iv2).recommendation = some "investigate" ∧
     (upgrade_device env2 iv2).resultSuccess = some true) := by
  obtain ⟨s, hs⟩ := g3
  obtain ⟨n, hnn⟩ := g4
  obtain ⟨m, hm⟩ := g5
  constructor
  · rw [upgrade_device_readiness_error env iv msg h1 h2 h3 h4 h5 h6]
    exact ⟨rfl, rfl, rfl, rfl, rfl, rfl⟩
  · rw [upgrade_device_success_shape env2 iv2 k s n g1 g2 hs hnn]
    have h4b : env2.aiEnabled = true := g1.2.2.2.1
    simp [aiResultDict, h4b, hm]

/-- Claim C8 witness: concrete readiness-oracle failure aborting before
mutation, and concrete post-upgrade-oracle failure degrading to
`investigate` while the job completes. -/
theorem c8_witness :
    ((upgrade_device envC8 "22.1R1").status = "failed" ∧
     (upgrade_device envC8 "22.1R1").raised =
       some (.valueError ("AI readiness analysis failed: " ++ "oracle unreachable")) ∧
     (upgrade_device envC8 "22.1R1").uploadCalls = 0 ∧
     (upgrade_device envC8 "22.1R1").installCalls = 0 ∧
     (upgrade_device envC8 "22.1R1").rebootCalls = 0 ∧
     (upgrade_device envC8 "22.1R1").savedSnapshots = 0) ∧
    ((upgrade_device envC8post "22.1R1").status = "completed" ∧
     (upgrade_device envC8post "22.1R1").recommendation = some "investigate" ∧
     (upgrade_device envC8post "22.1R1").resultSuccess = some true) :=
  c8_oracle_error_handling envC8 envC8post "22.1R1" "22.1R1" "oracle unreachable" 0
    rfl rfl rfl rfl rfl rfl
    ⟨rfl, rfl, rfl, rfl, rfl, ⟨_, rfl, rfl⟩, rfl, ⟨_, rfl⟩, ⟨_, rfl⟩, rfl, rfl, rfl, rfl⟩
    rfl ⟨_, rfl⟩ ⟨_, rfl⟩ ⟨_, rfl⟩

/-- Claim C10: `PyEZService` defines none of `health_check`,
`get_configuration`, `execute_rpc_call` or `dev`, `GitService` defines no
`commit_config`, and `PyEZService` has no `__init__`, so the
`PyEZService(device)` call at upgrade.py line 68 resolves to
`TypeError("PyEZService() takes no arguments")`; hence every run that
locates a firmware file raises before the readiness gate (zero oracle
consultations) and is recorded `failed`, and no run with the actual
constructor outcome ever reaches the successful terminal state. -/
theorem c10_upgrade_never_succeeds :
    ("health_check" ∉ pyezServiceMethodNames) ∧
    ("get_configuration" ∉ pyezServiceMethodNames) ∧
    ("execute_rpc_call" ∉ pyezServiceMethodNames) ∧
    ("dev" ∉ pyezServiceMethodNames) ∧
    ("commit_config" ∉ gitServiceMethodNames) ∧
    pyezServiceDefinesInit = false ∧
    upgradeServiceInitOutcome = .error (.typeError "PyEZService() takes no arguments") ∧
    (∀ env iv, env.deviceFound = true → env.firmwareFound = true →
      env.serviceInit = upgradeServiceInitOutcome →
      (upgrade_device env iv).status = "failed" ∧
      (upgrade_device env iv).raised =
        some (.typeError "PyEZService() takes no arguments") ∧
      (upgrade_device env iv).readinessCalls = 0 ∧
      (upgrade_device env iv).postValidationReached = false) ∧
    (∀ env iv, env.serviceInit = upgradeServiceInitOutcome →
      (upgrade_device env iv).status ≠ "completed") := by
  refine ⟨by decide, by decide, by decide, by decide, by decide, rfl, rfl, ?_, ?_⟩
  · intro env iv hd hf hs
    have hserr : env.serviceInit = .error (.typeError "PyEZService() takes no arguments") := hs
    simp [upgrade_device, hd, hf, hserr, upgFailedBase]
  · intro env iv hs
    have hserr : env.serviceInit = .error (.typeError "PyEZService() takes no arguments") := hs
    by_cases hd : env.deviceFound = false
    · simp [upgrade_device, hd, upgFailedBase]
    · by_cases hf : env.firmwareFound = false
      · simp [upgrade_device, hd, hf, upgFailedBase]
      · simp [upgrade_device, hd, hf, hserr, upgFailedBase]

/-- Claim C10 witness: concrete environment carrying the actual
constructor outcome. -/
theorem c10_witness :
    ((upgrade_device envC10 "22.1R1").status = "failed" ∧
     (upgrade_device envC10 "22.1R1").raised =
       some (.typeError "PyEZService() takes no arguments") ∧
     (upgrade_device envC10 "22.1R1").readinessCalls = 0 ∧
     (upgrade_device envC10 "22.1R1").postValidationReached = false) ∧
    (upgrade_device envC10 "22.1R1").status ≠ "completed" :=
  ⟨c10_upgrade_never_succeeds.2.2.2.2.2.2.2.1 envC10 "22.1R1" rfl rfl rfl,
   c10_upgrade_never_succeeds.2.2.2.2.2.2.2.2 envC10 "22.1R1" rfl⟩

/-- Indexing the freshly appended commit returns its tree. -/
theorem list_get_concat (l : List GitTree) (a : GitTree) :
    (l ++ [a]).get? l.length = some a := by
  induction l with
  | nil => rfl
  | cons x xs ih => exact ih

/-- If the written path matches the searched suffix and no pre-existing
tree path does, the first matching blob of the updated tree is the written
one. -/
theorem findConfigBlob_insert (t : GitTree) (p c : String) (hn : String)
    (hp : strEndsWith p (hn ++ ".conf") = true)
    (ht : ∀ q ∈ t.map Prod.fst, strEndsWith q (hn ++ ".conf") = false) :
    findConfigBlob (insertSorted t p c) hn = some c := by
  induction t with
  | nil => simp [insertSorted, findConfigBlob, hp]
  | cons qd rest ih =>
    obtain ⟨q, d0⟩ := qd
    have hq : strEndsWith q (hn ++ ".conf") = false := ht q (by simp)
    by_cases h1 : p = q
    · subst h1
      simp [insertSorted, findConfigBlob, hp]
    · by_cases h2 : strLt p q = true
      · simp [insertSorted, h1, h2, findConfigBlob, hp]
      · simp only [insertSorted, if_neg h1, h2, Bool.false_eq_true, if_false,
          findConfigBlob, hq]
        exact ih (fun q2 hq2 => ht q2 (by simp [hq2]))

/-- Claim C9 counterexample: with a pre-existing blob at `r/s/afw.conf`
(whose path ends with `fw.conf`), saving device `fw`'s configuration and
reading it back via the returned commit sha yields the OTHER device's
content, not the saved text: the lookup matches the first blob whose path
merely ends with `hostname.conf`. -/
theorem c9_counterexample :
    (save_config true repoWithCollision deviceFw "MY-SAVED-CONFIG").2.2 = some 1 ∧
    get_config_at_commit (save_config true repoWithCollision deviceFw "MY-SAVED-CONFIG").1
      deviceFw 1 = .ok "OTHER-DEVICE-CONFIG" ∧
    "OTHER-DEVICE-CONFIG" ≠ "MY-SAVED-CONFIG" := by
  refine ⟨rfl, rfl, by decide⟩

/-- Claim C9 (amended): for every device, configuration text and repository
state in which no already-stored path ends with the device's
`hostname.conf` suffix, saving with auto-commit on and re-reading via the
returned commit sha yields exactly the saved content. -/
theorem c9_roundtrip_unique_suffix (repo : GitRepo) (d : DeviceM) (txt : String)
    (hp : strEndsWith (devicePath d) (d.hostname ++ ".conf") = true)
    (hothers : ∀ q ∈ repo.workTree.map Prod.fst,
      strEndsWith q (d.hostname ++ ".conf") = false) :
    (save_config true repo d txt).2.2 = some repo.commits.length ∧
    get_config_at_commit (save_config true repo d txt).1 d repo.commits.length = .ok txt := by
  refine ⟨rfl, ?_⟩
  have ht := findConfigBlob_insert repo.workTree (devicePath d) txt d.hostname hp hothers
  unfold save_config get_config_at_commit
  simp [list_get_concat, ht]

/-- Claim C9 witness: concrete round trip in a clean repository. -/
theorem c9_witness :
    (save_config true repoClean deviceFw "set system host-name fw").2.2
      = some repoClean.commits.length ∧
    get_config_at_commit (save_config true repoClean deviceFw "set system host-name fw").1
      deviceFw repoClean.commits.length = .ok "set system host-name fw" :=
  c9_roundtrip_unique_suffix repoClean deviceFw "set system host-name fw"
    (by decide) (by decide)
